import Mathlib

/-!
Verification of the `oxiderr` error-taxonomy library.

The development shallowly embeds the data model of `src/kind.rs` and
`src/error.rs`: the `ErrorKind` record, the canonical `Error` value, the
`AsError` contract, the `Display` rendering, the serde serialization
(with `kind` skipped), the `Default` constructor and the conversion into
`std::io::Error`.  `serde_value::Value` is embedded as the inductive
`SValue`, and `std::collections::BTreeMap<String, Value>` as an
association list bundled with its strictly-sorted-keys invariant.
-/

namespace Oxiderr

/-- Embedding of `serde_value::Value`: an arbitrary structured value. -/
inductive SValue where
  | null : SValue
  | bool : Bool → SValue
  | int : Int → SValue
  | str : String → SValue
  | seq : List SValue → SValue
  | map : List (String × SValue) → SValue
deriving Repr

/-- Embedding of `std::collections::BTreeMap<String, serde_value::Value>`:
an association list whose keys are strictly increasing (the B-tree
iteration order). -/
structure BTreeMapSV where
  entries : List (String × SValue)
  sorted : entries.Pairwise (fun a b => a.1 < b.1)

/-- Association-list lookup, the embedding of `BTreeMap::get`. -/
def lookupKey (k : String) : List (String × SValue) → Option SValue
  | [] => none
  | (k', v) :: rest => if k = k' then some v else lookupKey k rest

/-- Embedding of `ErrorKind` from `src/kind.rs`: a tuple struct of a
name, a message id, a `u16` code and a description.  The `u16` code is
embedded as a `Nat` (bounded by `2 ^ 16` where it matters). -/
structure ErrorKind where
  name : String
  message_id : String
  code : Nat
  description : String
deriving Repr

/-- The structural equality generated by `#[derive(PartialEq)]` on
`ErrorKind`. -/
def ErrorKind.beq (a b : ErrorKind) : Bool :=
  a.name == b.name && a.message_id == b.message_id
    && a.code == b.code && a.description == b.description

/-- Embedding of `ErrorKind::side` from `src/kind.rs`:
`match self.code() { 0..=499 => "Client", _ => "Server" }`. -/
def ErrorKind.side (k : ErrorKind) : String :=
  if k.code ≤ 499 then "Client" else "Server"

/-- Embedding of the `Error` struct from `src/error.rs`. -/
structure Error where
  kind : ErrorKind
  «class» : String
  message : String
  details : Option BTreeMapSV

/-- Embedding of the `AsError` trait from `src/error.rs`: a dictionary
giving, for a concrete error type `E`, the associated kind (a property
of the type) and the three instance-level operations. -/
structure AsErrorImpl (E : Type) where
  kind : ErrorKind
  «class» : E → String
  message : E → String
  details : E → Option BTreeMapSV

/-- Embedding of `impl<E: AsError> From<E> for Error` from
`src/error.rs`. -/
def Error.fromAsError {E : Type} (inst : AsErrorImpl E) (v : E) : Error :=
  { kind := inst.kind
    «class» := inst.«class» v
    message := inst.message v
    details := inst.details v }

/-- Embedding of `impl std::fmt::Display for Error`:
`format!("[{}] {} ({}) - {}", kind.message_id(), class, kind.code(), message)`.
`u16` values format in decimal, matching `toString` on `Nat`. -/
def Error.display (e : Error) : String :=
  "[" ++ e.kind.message_id ++ "] " ++ e.«class» ++ " ("
    ++ toString e.kind.code ++ ") - " ++ e.message

/-- Embedding of `impl Default for Error` from `src/error.rs`. -/
def Error.default : Error :=
  { kind :=
      { name := "InternalServerError"
        message_id := "MSG000"
        code := 500
        description := "Internal Server Error" }
    «class» := "Server::InternalServerError::Error"
    message := "Internal Server Error"
    details := none }

/-- Embedding of the serde `Serialize` derive on `Error`: fields are
emitted in declaration order, `kind` is skipped
(`#[serde(skip_serializing)]`), and the `Option` field serializes as
`null` when `None` (there is no `skip_serializing_if`). -/
def Error.serialize (e : Error) : List (String × SValue) :=
  [ ("class", SValue.str e.«class»)
  , ("message", SValue.str e.message)
  , ("details",
      match e.details with
      | none => SValue.null
      | some m => SValue.map m.entries) ]

/-- Embedding of `std::io::ErrorKind` (the variants relevant to this
library's interop boundary). -/
inductive IoErrorKind where
  | invalidData : IoErrorKind
  | notFound : IoErrorKind
  | permissionDenied : IoErrorKind
  | other : IoErrorKind
deriving Repr, DecidableEq

/-- Embedding of `std::io::Error` as constructed by
`std::io::Error::new(kind, message)`. -/
structure IoError where
  kind : IoErrorKind
  message : String

/-- Embedding of `impl From<Error> for std::io::Error`:
`std::io::Error::new(std::io::ErrorKind::InvalidData, format!("{}", e))`. -/
def Error.toIoError (e : Error) : IoError :=
  { kind := IoErrorKind.invalidData, message := e.display }

/-- Modelled from the spec: `Error` derives `Serialize` only — no
`Deserialize` implementation exists in the source.  The spec's
round-trip statement requires a deserializer that reads `class`,
`message` and `details` back from the serialized record while the
`kind`, absent from the wire, "must be supplied externally or defaulted
by the deserializer"; this definition takes that external kind as an
argument. -/
def deserializeError (fields : List (String × SValue)) (k : ErrorKind) :
    Option Error :=
  match lookupKey "class" fields, lookupKey "message" fields with
  | some (SValue.str c), some (SValue.str m) =>
    match lookupKey "details" fields with
    | some SValue.null =>
      some { kind := k, «class» := c, message := m, details := none }
    | some (SValue.map xs) =>
      if h : xs.Pairwise (fun a b => a.1 < b.1) then
        some { kind := k, «class» := c, message := m, details := some ⟨xs, h⟩ }
      else none
    | _ => none
  | _, _ => none

/-- A concrete details map used to exercise the serialization theorems
on explicit inputs. -/
def sampleDetails : BTreeMapSV :=
  ⟨[("path", SValue.str "/tmp/x"), ("user", SValue.str "root")], by
    simp [String.lt_iff_toList_lt]
    decide⟩

/-- A concrete error carrying `sampleDetails`. -/
def sampleError1 : Error :=
  { kind := ⟨"IoError", "Err-00001", 500, "I/O failure"⟩
    «class» := "Server::IoError::ReadFailed"
    message := "disk full"
    details := some sampleDetails }

/-- A second concrete error with the same details content as
`sampleError1` but different kind, class and message. -/
def sampleError2 : Error :=
  { kind := ⟨"NotFound", "MSG001", 404, "Not Found"⟩
    «class» := "Client::NotFound::MyError"
    message := "Not Found"
    details := some sampleDetails }

/-- If a key is strictly below every key of an association list the
lookup misses. -/
theorem lookupKey_eq_none_of_lt (a : String)
    (xs : List (String × SValue)) (h : ∀ p ∈ xs, a < p.1) :
    lookupKey a xs = none := by
  induction xs with
  | nil => rfl
  | cons p rest ih =>
    obtain ⟨k', v⟩ := p
    have hne : a ≠ k' := ne_of_lt (h (k', v) (by simp))
    simp only [lookupKey, if_neg hne]
    exact ih (fun q hq => h q (List.mem_cons_of_mem _ hq))

/-- A successful lookup exhibits an entry with the looked-up key. -/
theorem exists_mem_of_lookupKey_some {a : String} {v : SValue}
    {xs : List (String × SValue)} (h : lookupKey a xs = some v) :
    ∃ p ∈ xs, p.1 = a := by
  induction xs with
  | nil => simp [lookupKey] at h
  | cons p rest ih =>
    obtain ⟨k', v'⟩ := p
    by_cases hk : a = k'
    · exact ⟨(k', v'), by simp, hk.symm⟩
    · simp only [lookupKey, if_neg hk] at h
      obtain ⟨q, hq, hqa⟩ := ih h
      exact ⟨q, List.mem_cons_of_mem _ hq, hqa⟩

/-- Two association lists with strictly increasing keys that agree on
every lookup are equal as lists: the B-tree representation of a mapping
is unique. -/
theorem sorted_lookup_ext (xs : List (String × SValue)) :
    ∀ ys : List (String × SValue),
      xs.Pairwise (fun a b => a.1 < b.1) →
      ys.Pairwise (fun a b => a.1 < b.1) →
      (∀ k, lookupKey k xs = lookupKey k ys) → xs = ys := by
  induction xs with
  | nil =>
    intro ys _ _ h
    cases ys with
    | nil => rfl
    | cons q ys' =>
      obtain ⟨b, vb⟩ := q
      have hb := h b
      simp [lookupKey] at hb
  | cons p xs' ih =>
    intro ys hx hy h
    obtain ⟨a, va⟩ := p
    have hx' := List.pairwise_cons.mp hx
    cases ys with
    | nil =>
      have ha := h a
      simp [lookupKey] at ha
    | cons q ys' =>
      obtain ⟨b, vb⟩ := q
      have hy' := List.pairwise_cons.mp hy
      by_cases hab : a = b
      · subst hab
        have hv : some va = some vb := by
          have ha := h a
          simpa [lookupKey] using ha
        obtain rfl : va = vb := Option.some.inj hv
        have htail : ∀ k, lookupKey k xs' = lookupKey k ys' := by
          intro k
          by_cases hk : k = a
          · subst hk
            rw [lookupKey_eq_none_of_lt _ _ (fun q hq => hx'.1 q hq),
              lookupKey_eq_none_of_lt _ _ (fun q hq => hy'.1 q hq)]
          · have hkk := h k
            simpa [lookupKey, if_neg hk] using hkk
        rw [ih ys' hx'.2 hy'.2 htail]
      · exfalso
        have hba' : ¬ (b = a) := fun hh => hab hh.symm
        have h1 : lookupKey a ys' = some va := by
          have ha := h a
          simp only [lookupKey, if_pos rfl, if_neg hab] at ha
          exact ha.symm
        obtain ⟨p1, hp1, hp1a⟩ := exists_mem_of_lookupKey_some h1
        have hba : b < a := hp1a ▸ hy'.1 p1 hp1
        have h2 : lookupKey b xs' = some vb := by
          have hb := h b
          simpa [lookupKey, if_neg hba'] using hb
        obtain ⟨p2, hp2, hp2b⟩ := exists_mem_of_lookupKey_some h2
        exact lt_asymm hba (hp2b ▸ hx'.1 p2 hp2)

/-- Claim C1: converting any value of an `AsError`-implementing type into
`Error` yields exactly the kind of the type and the class, message and
details of the value, field-wise with no transformation; the conversion
is total (it is a plain Lean function). -/
theorem fromAsError_fieldwise {E : Type} (inst : AsErrorImpl E) (v : E) :
    (Error.fromAsError inst v).kind = inst.kind
      ∧ (Error.fromAsError inst v).«class» = inst.«class» v
      ∧ (Error.fromAsError inst v).message = inst.message v
      ∧ (Error.fromAsError inst v).details = inst.details v :=
  ⟨rfl, rfl, rfl, rfl⟩

/-- Claim C2: `ErrorKind.side` returns `"Client"` exactly when the code
is at most 499, `"Server"` for every code at least 500, and never any
other string. -/
theorem side_client_server (k : ErrorKind) :
    (k.code ≤ 499 → k.side = "Client")
      ∧ (500 ≤ k.code → k.side = "Server")
      ∧ (k.side = "Client" ∨ k.side = "Server") := by
  refine ⟨fun h => ?_, fun h => ?_, ?_⟩
  · simp [ErrorKind.side, h]
  · have hn : ¬ k.code ≤ 499 := by omega
    simp [ErrorKind.side, hn]
  · unfold ErrorKind.side
    by_cases h : k.code ≤ 499 <;> simp [h]

/-- Witness for C2 at concrete kinds with codes 404 and 500. -/
theorem side_client_server_witness :
    (ErrorKind.mk "NotFound" "MSG001" 404 "Not Found").side = "Client"
      ∧ (ErrorKind.mk "InternalServerError" "MSG000" 500
          "Internal Server Error").side = "Server" :=
  ⟨(side_client_server _).1 (by decide),
   (side_client_server _).2.1 (by decide)⟩

/-- Claim C3: the `Display` rendering of every `Error` is exactly
`"[" ++ message_id ++ "] " ++ class ++ " (" ++ code ++ ") - " ++ message`,
and the concrete example from the spec renders to exactly
`"[MSG001] Client::NotFound::MyError (404) - Not Found"`. -/
theorem display_canonical :
    (∀ e : Error,
        e.display = "[" ++ e.kind.message_id ++ "] " ++ e.«class» ++ " ("
          ++ toString e.kind.code ++ ") - " ++ e.message)
      ∧ (Error.mk (ErrorKind.mk "NotFound" "MSG001" 404 "Not Found")
            "Client::NotFound::MyError" "Not Found" none).display
          = "[MSG001] Client::NotFound::MyError (404) - Not Found" :=
  ⟨fun _ => rfl, rfl⟩

/-- Claim C4: the serialized form of every `Error` has exactly the three
fields `class`, `message`, `details` (in that order), `kind` never
appears, and `details` serializes to `null` when it is `None`. -/
theorem serialize_shape (e : Error) :
    e.serialize.map Prod.fst = ["class", "message", "details"]
      ∧ "kind" ∉ e.serialize.map Prod.fst
      ∧ (e.details = none →
          lookupKey "details" e.serialize = some SValue.null) := by
  refine ⟨rfl, ?_, fun h => ?_⟩
  · show "kind" ∉ (["class", "message", "details"] : List String)
    decide
  · simp [Error.serialize, lookupKey, h]

/-- Witness for C4 at the default error, whose `details` is `None`. -/
theorem serialize_shape_witness :
    Error.default.serialize.map Prod.fst = ["class", "message", "details"]
      ∧ "kind" ∉ Error.default.serialize.map Prod.fst
      ∧ lookupKey "details" Error.default.serialize = some SValue.null :=
  ⟨(serialize_shape Error.default).1,
   (serialize_shape Error.default).2.1,
   (serialize_shape Error.default).2.2 rfl⟩

/-- Claim C5: the default-constructed `Error` has kind
`("InternalServerError", "MSG000", 500, "Internal Server Error")`,
class `"Server::InternalServerError::Error"`, message
`"Internal Server Error"` and no details. -/
theorem default_error_fields :
    Error.default.kind.name = "InternalServerError"
      ∧ Error.default.kind.message_id = "MSG000"
      ∧ Error.default.kind.code = 500
      ∧ Error.default.kind.description = "Internal Server Error"
      ∧ Error.default.«class» = "Server::InternalServerError::Error"
      ∧ Error.default.message = "Internal Server Error"
      ∧ Error.default.details = none :=
  ⟨rfl, rfl, rfl, rfl, rfl, rfl, rfl⟩

/-- Claim C6: converting any `Error` into the platform I/O error yields
the `InvalidData` kind and a message equal to the `Display` rendering. -/
theorem toIoError_spec (e : Error) :
    e.toIoError.kind = IoErrorKind.invalidData
      ∧ e.toIoError.message = e.display :=
  ⟨rfl, rfl⟩

/-- Claim C7: two `ErrorKind` values compare equal under the derived
structural equality exactly when all four fields are pairwise equal, so
differing in any single field makes them compare unequal. -/
theorem errorKind_beq_iff (a b : ErrorKind) :
    ErrorKind.beq a b = true
      ↔ (a.name = b.name ∧ a.message_id = b.message_id
          ∧ a.code = b.code ∧ a.description = b.description) := by
  simp [ErrorKind.beq, Bool.and_eq_true, and_assoc]

/-- Witness for C7: equal fields compare equal; a single differing field
(the code) compares unequal. -/
theorem errorKind_beq_iff_witness :
    ErrorKind.beq (ErrorKind.mk "NotFound" "MSG001" 404 "Not Found")
        (ErrorKind.mk "NotFound" "MSG001" 404 "Not Found") = true
      ∧ ErrorKind.beq (ErrorKind.mk "NotFound" "MSG001" 404 "Not Found")
          (ErrorKind.mk "NotFound" "MSG001" 405 "Not Found") = false :=
  ⟨(errorKind_beq_iff _ _).mpr ⟨rfl, rfl, rfl, rfl⟩,
   Bool.eq_false_iff.mpr (fun h =>
     absurd ((errorKind_beq_iff _ _).mp h).2.2.1 (by decide))⟩

/-- Claim C10: the `Display` rendering depends only on the kind's
message id and code, the class and the message: two `Error` values
agreeing on those four render identically, whatever their details and
the kind's name and description. -/
theorem display_ignores_details (e1 e2 : Error)
    (h1 : e1.kind.message_id = e2.kind.message_id)
    (h2 : e1.kind.code = e2.kind.code)
    (h3 : e1.«class» = e2.«class»)
    (h4 : e1.message = e2.message) :
    e1.display = e2.display := by
  simp [Error.display, h1, h2, h3, h4]

/-- Witness for C10: two errors differing in kind name, kind
description and details render identically. -/
theorem display_ignores_details_witness :
    (Error.mk (ErrorKind.mk "NotFound" "MSG001" 404 "Not Found")
        "Client::NotFound::MyError" "Not Found" none).display
      = (Error.mk (ErrorKind.mk "Missing" "MSG001" 404 "gone")
          "Client::NotFound::MyError" "Not Found"
          (some ⟨[("path", SValue.str "/tmp/x")], by simp⟩)).display :=
  display_ignores_details _ _ rfl rfl rfl rfl

/-- Claim C8: serializing an `Error` and deserializing the result
reconstructs `class`, `message` and `details` exactly, while the kind is
whatever the deserializer is externally supplied with — the serialized
form carries no trace of the original kind. -/
theorem serialize_roundtrip (e : Error) (k : ErrorKind) :
    deserializeError e.serialize k
      = some { kind := k, «class» := e.«class», message := e.message
               details := e.details } := by
  obtain ⟨ek, c, m, d⟩ := e
  cases d with
  | none => simp [deserializeError, Error.serialize, lookupKey]
  | some btm =>
    obtain ⟨xs, hs⟩ := btm
    have hs' : xs.Pairwise (fun a b => a.1.data < b.1.data) := by
      simpa [String.lt_iff_toList_lt] using hs
    simp [deserializeError, Error.serialize, lookupKey, hs, hs']

/-- Claim C9: serialized detail entries are in strictly ascending key
order, and two errors whose details maps have the same content (agree on
every lookup) serialize their `details` field to the identical
sequence. -/
theorem details_serialization_sorted (e1 e2 : Error) (d1 d2 : BTreeMapSV)
    (h1 : e1.details = some d1) (h2 : e2.details = some d2) :
    (d1.entries.map Prod.fst).Pairwise (· < ·)
      ∧ ((∀ k, lookupKey k d1.entries = lookupKey k d2.entries) →
          lookupKey "details" e1.serialize
            = lookupKey "details" e2.serialize) := by
  constructor
  · exact List.pairwise_map.mpr d1.sorted
  · intro hcontent
    have he : d1.entries = d2.entries :=
      sorted_lookup_ext _ _ d1.sorted d2.sorted hcontent
    simp [Error.serialize, lookupKey, h1, h2, he]

/-- Witness for C9 at two concrete errors sharing the same two-entry
details map. -/
theorem details_serialization_sorted_witness :
    (sampleDetails.entries.map Prod.fst).Pairwise (· < ·)
      ∧ lookupKey "details" sampleError1.serialize
          = lookupKey "details" sampleError2.serialize :=
  ⟨(details_serialization_sorted sampleError1 sampleError2
      sampleDetails sampleDetails rfl rfl).1,
   (details_serialization_sorted sampleError1 sampleError2
      sampleDetails sampleDetails rfl rfl).2 (fun _ => rfl)⟩

end Oxiderr
